import Mathlib

/-!
# Verification of the fsarchiver archive read path (src/archreader.c)

This file is a shallow embedding of the archive-reading code in
`src/archreader.c` of the fsarchiver repository, together with theorems
settling the specification claims about it.

Modelling conventions:

* The archive file descriptor together with the kernel file offset is
  modelled as an `ArchStream`: an immutable byte list plus a read
  position.  `read(fd, buf, n)` on a regular file returns fewer than `n`
  bytes exactly when fewer than `n` bytes remain, which
  `archreader_read_data` treats as an error; hence the model returns
  `none` in that case.  `lseek64` on a regular file succeeds for any
  non-negative target offset, so seeks are modelled as pure position
  updates.
* Bytes are natural numbers (values 0..255 in any stream produced by
  the encoders below); multi-byte fields are little-endian, decoded by
  explicit functions independent of host byte order (`le16_to_cpu`,
  `le32_to_cpu` in the C source both funnel into `le_decode`).
* Memory allocation (`malloc`, `dico_alloc`) is assumed to succeed; the
  C paths handling allocation failure are not modelled.  `free` has no
  observable effect in the model.
* Helpers that live in files of this repository that are not under
  `src/` (`fletcher32`, `is_magic_valid`, the `dico_*` accessors, and
  the `FSA_*` constants) are modelled from the spec; each such
  definition carries a doc comment saying so.
* An out-of-bounds `memcpy` read from the malloc'ed header buffer in
  `archreader_read_dico` is undefined behaviour in C.  The model makes
  it observable: every in-buffer read is bounds-checked and a read that
  the C code would perform past the end of the buffer yields the
  distinguished outcome `ArchErr.oob`.
-/

/-- Little-endian decoding of a byte list into a natural number
(`le16_to_cpu` / `le32_to_cpu` applied to the copied bytes). -/
def le_decode (bs : List Nat) : Nat :=
  bs.foldr (fun b acc => b + 256 * acc) 0

/-- Little-endian encoding of `n` into `w` bytes (witness-building
helper; modelled from the spec's wire format, the write path is not
under src/). -/
def le_encode : Nat → Nat → List Nat
  | 0, _ => []
  | w + 1, n => (n % 256) :: le_encode w (n / 256)

/-- Modelled from the spec: the 32-bit Fletcher checksum used for
header and block integrity (`fletcher32` lives in code not under
src/).  Two running sums over the bytes, each reduced mod 65535,
packed into one 32-bit value. -/
def fletcher32 (bs : List Nat) : Nat :=
  let p := bs.foldl (fun (st : Nat × Nat) b =>
    ((st.1 + b) % 65535, (st.2 + st.1 + b) % 65535)) (0, 0)
  p.2 * 65536 + p.1

/-- Modelled from the spec: the magic marker is an 8-byte literal. -/
def FSA_SIZEOF_MAGIC : Nat := 8

/-- Modelled from the spec: the `u16` sentinel meaning "not associated
with a filesystem" (`FSA_FILESYSID_NULL`, defined outside src/). -/
def FSA_FILESYSID_NULL : Nat := 65535

/-- Modelled from the spec: the fixed maximum logical block size that
`archreader_read_block` enforces (`FSA_MAX_BLKSIZE`, defined outside
src/; the exact value is irrelevant to the claims). -/
def FSA_MAX_BLKSIZE : Nat := 921600

/-- Modelled from the spec: the volume-header magic marker
(`FSA_MAGIC_VOLH`, defined outside src/); an arbitrary distinguished
8-byte value, here the ASCII bytes of "FsArVolH". -/
def FSA_MAGIC_VOLH : List Nat := [70, 115, 65, 114, 86, 111, 108, 72]

/-- Modelled from the spec: maximum length of the file-format version
string (`FSA_MAX_FILEFMTLEN`, defined outside src/). -/
def FSA_MAX_FILEFMTLEN : Nat := 256

/-- Modelled from the spec: maximum length of the creator program
version string (`FSA_MAX_PROGVERLEN`, defined outside src/). -/
def FSA_MAX_PROGVERLEN : Nat := 256

/-- Modelled from the spec: volume-header dictionary keys (defined
outside src/; only distinctness matters). -/
def VOLUMEHEADKEY_ARCHID : Nat := 1

/-- Modelled from the spec: volume number key. -/
def VOLUMEHEADKEY_VOLNUM : Nat := 2

/-- Modelled from the spec: file-format version key. -/
def VOLUMEHEADKEY_FILEFORMATVER : Nat := 3

/-- Modelled from the spec: creator program version key. -/
def VOLUMEHEADKEY_PROGVERCREAT : Nat := 4

/-- Modelled from the spec: block-header dictionary keys (defined
outside src/; only distinctness matters). -/
def BLOCKHEADITEMKEY_BLOCKOFFSET : Nat := 1

/-- Modelled from the spec: logical (uncompressed) block size key. -/
def BLOCKHEADITEMKEY_REALSIZE : Nat := 2

/-- Modelled from the spec: compression algorithm id key. -/
def BLOCKHEADITEMKEY_COMPRESSALGO : Nat := 3

/-- Modelled from the spec: encryption algorithm id key. -/
def BLOCKHEADITEMKEY_ENCRYPTALGO : Nat := 4

/-- Modelled from the spec: on-disk (archived) block size key. -/
def BLOCKHEADITEMKEY_ARSIZE : Nat := 5

/-- Modelled from the spec: compressed-payload size key. -/
def BLOCKHEADITEMKEY_COMPSIZE : Nat := 6

/-- Modelled from the spec: stored block checksum key. -/
def BLOCKHEADITEMKEY_ARCSUM : Nat := 7

/-- The archive byte stream: the open volume file's contents plus the
kernel file offset of the descriptor `ai->archfd`. -/
structure ArchStream where
  data : List Nat
  pos : Nat
deriving DecidableEq, Repr

/-- `archreader_read_data` (src/archreader.c:97): read exactly `n`
bytes at the current position, failing (return -1, modelled `none`)
when fewer than `n` bytes remain. -/
def archreader_read_data (s : ArchStream) (n : Nat) : Option (List Nat × ArchStream) :=
  if s.pos + n ≤ s.data.length then
    some ((s.data.drop s.pos).take n, { s with pos := s.pos + n })
  else
    none

/-- One typed record of a dictionary: type tag, section, key, payload
bytes (the `size` of the wire format is `data.length`). -/
structure DicoItem where
  type : Nat
  sec : Nat
  key : Nat
  data : List Nat
deriving DecidableEq, Repr

/-- A dictionary (`cdico`): the ordered list of its records.  Storage
internals live in dico.c, which is not under src/; the spec describes
it as an ordered collection of typed records keyed by (section, key). -/
abbrev cdico := List DicoItem

/-- Modelled from the spec: `dico_add_generic` appends a record (the
dictionary is an ordered collection; duplicates are not rejected by the
core).  Allocation failure is not modelled. -/
def dico_add_generic (d : cdico) (sec key : Nat) (data : List Nat) (type : Nat) : cdico :=
  d ++ [⟨type, sec, key, data⟩]

/-- Modelled from the spec: lookup of the first record with the given
(section, key). -/
def dico_get_generic (d : cdico) (sec key : Nat) : Option DicoItem :=
  d.find? (fun it => it.sec == sec && it.key == key)

/-- Modelled from the spec: typed u16 accessor — the first matching
record's payload, required to be exactly 2 bytes, decoded
little-endian. -/
def dico_get_u16 (d : cdico) (sec key : Nat) : Option Nat :=
  match dico_get_generic d sec key with
  | some it => if it.data.length = 2 then some (le_decode it.data) else none
  | none => none

/-- Modelled from the spec: typed u32 accessor (4-byte payload). -/
def dico_get_u32 (d : cdico) (sec key : Nat) : Option Nat :=
  match dico_get_generic d sec key with
  | some it => if it.data.length = 4 then some (le_decode it.data) else none
  | none => none

/-- Modelled from the spec: typed u64 accessor (8-byte payload). -/
def dico_get_u64 (d : cdico) (sec key : Nat) : Option Nat :=
  match dico_get_generic d sec key with
  | some it => if it.data.length = 8 then some (le_decode it.data) else none
  | none => none

/-- Modelled from the spec: raw-data accessor — the first matching
record's payload, failing when it does not fit the caller's buffer of
`bufsize` bytes. -/
def dico_get_data (d : cdico) (sec key bufsize : Nat) : Option (List Nat) :=
  match dico_get_generic d sec key with
  | some it => if it.data.length ≤ bufsize then some it.data else none
  | none => none

/-- A bounds-checked read of `n` bytes at offset `pos` of the malloc'ed
header buffer.  `none` marks a `memcpy` that the C code performs past
the end of the buffer (undefined behaviour). -/
def bufRead (buffer : List Nat) (pos n : Nat) : Option (List Nat) :=
  if pos + n ≤ buffer.length then some ((buffer.drop pos).take n) else none

/-- The record-parsing loop of `archreader_read_dico`
(src/archreader.c:171-195): for each of `count` records read type
(1 byte), section (1 byte), key (2 bytes LE), size (2 bytes LE), then
`size` payload bytes, appending each record to the dictionary.  The C
loop performs no bounds check; the model returns `none` at the first
read that would leave the buffer. -/
def parse_items : cdico → List Nat → Nat → Nat → Option cdico
  | d, _, _, 0 => some d
  | d, buffer, pos, c + 1 =>
    match bufRead buffer pos 1 with
    | none => none
    | some tb =>
      match bufRead buffer (pos + 1) 1 with
      | none => none
      | some sb =>
        match bufRead buffer (pos + 2) 2 with
        | none => none
        | some kb =>
          match bufRead buffer (pos + 4) 2 with
          | none => none
          | some zb =>
            let size := le_decode zb
            match bufRead buffer (pos + 6) size with
            | none => none
            | some payload =>
              parse_items
                (dico_add_generic d (le_decode sb) (le_decode kb) payload (le_decode tb))
                buffer (pos + 6 + size) c

/-- Result severity of the reader operations, mirroring the C return
codes `ERR_SUCCESS` / `ERR_FATAL` / `ERR_MINOR`; `oob` is the extra
observable marking an out-of-bounds buffer read (C undefined
behaviour), which the C code does not survive as a return code. -/
inductive ArchErr where
  | success : ArchErr
  | fatal : ArchErr
  | minor : ArchErr
  | oob : ArchErr
deriving DecidableEq, Repr

/-- `archreader_read_dico` (src/archreader.c:111-199): read a 2-byte
little-endian header length, `headerlen` bytes of record data and a
4-byte little-endian checksum; on checksum mismatch free the buffer
and return `ERR_MINOR` without parsing any record; otherwise read the
2-byte record count and run the parse loop.  The returned `cdico` is
the (unchanged) input dictionary on the error paths and the filled one
on success; the returned stream reflects the bytes consumed. -/
def archreader_read_dico (s : ArchStream) (d : cdico) : ArchErr × cdico × ArchStream :=
  match archreader_read_data s 2 with
  | none => (ArchErr.fatal, d, s)
  | some (lenb, s1) =>
    let headerlen := le_decode lenb
    match archreader_read_data s1 headerlen with
    | none => (ArchErr.fatal, d, s1)
    | some (buffer, s2) =>
      match archreader_read_data s2 4 with
      | none => (ArchErr.fatal, d, s2)
      | some (sumb, s3) =>
        let origsum := le_decode sumb
        if fletcher32 buffer ≠ origsum then
          (ArchErr.minor, d, s3)
        else
          match bufRead buffer 0 2 with
          | none => (ArchErr.oob, d, s3)
          | some cb =>
            match parse_items d buffer 2 (le_decode cb) with
            | none => (ArchErr.oob, d, s3)
            | some d2 => (ArchErr.success, d2, s3)

/-- Modelled from the spec: `is_magic_valid` (code not under src/)
recognizes the fixed set of 8-byte magic markers; the model takes the
set as an explicit parameter. -/
def is_magic_valid (magics : List (List Nat)) (m : List Nat) : Bool :=
  magics.contains m

/-- The resync-scanner loop of `archreader_read_header`
(src/archreader.c:240-250): starting from the candidate offset
`curpos` (the position at which the failed magic read started), seek
to `curpos`, `curpos+1`, ... and re-read the magic-length window at
each offset until a recognized marker is found, returning it together
with the stream position immediately after it; a failed read (fewer
than `FSA_SIZEOF_MAGIC` bytes remain) is fatal, modelled `none`. -/
def magic_scan (magics : List (List Nat)) (data : List Nat) (curpos : Nat) :
    Option (List Nat × Nat) :=
  if h : curpos + FSA_SIZEOF_MAGIC ≤ data.length then
    if is_magic_valid magics ((data.drop curpos).take FSA_SIZEOF_MAGIC) then
      some ((data.drop curpos).take FSA_SIZEOF_MAGIC, curpos + FSA_SIZEOF_MAGIC)
    else
      magic_scan magics data (curpos + 1)
  else
    none
termination_by data.length - curpos
decreasing_by simp only [FSA_SIZEOF_MAGIC] at h; omega

/-- The out-parameters and return code of `archreader_read_header`:
result severity, the magic bytes written into `magic`, the filesystem
id written into `*fsid`, the dictionary `*d`, and the stream after the
call. -/
structure ReadHeaderOut where
  res : ArchErr
  magic : List Nat
  fsid : Nat
  d : cdico
  stream : ArchStream
deriving DecidableEq, Repr

/-- The part of `archreader_read_header` after the archive-id check
(src/archreader.c:266-279): read the 2-byte filesystem id, then the
dictionary; a dictionary failure is propagated as the result with
`*fsid` already set. -/
def read_header_after_id (magic : List Nat) (s : ArchStream) : ReadHeaderOut :=
  match archreader_read_data s 2 with
  | none => ⟨ArchErr.fatal, magic, FSA_FILESYSID_NULL, [], s⟩
  | some (fsb, s4) =>
    match archreader_read_dico s4 [] with
    | (ArchErr.success, d, s5) => ⟨ArchErr.success, magic, le_decode fsb, d, s5⟩
    | (r, _, s5) => ⟨r, magic, le_decode fsb, [], s5⟩

/-- The part of `archreader_read_header` after the magic has been
obtained (src/archreader.c:252-264): read the 4-byte little-endian
archive id; if the session id is established (`ai->archid` nonzero)
and the header's id differs, return `ERR_MINOR`; otherwise continue. -/
def archreader_read_header_rest (aiArchid : Nat) (magic : List Nat) (s : ArchStream) :
    ReadHeaderOut :=
  match archreader_read_data s 4 with
  | none => ⟨ArchErr.fatal, magic, FSA_FILESYSID_NULL, [], s⟩
  | some (idb, s3) =>
    if aiArchid ≠ 0 ∧ le_decode idb ≠ aiArchid then
      ⟨ArchErr.minor, magic, FSA_FILESYSID_NULL, [], s3⟩
    else
      read_header_after_id magic s3

/-- `archreader_read_header` (src/archreader.c:201-280): record the
current position, read the magic window; if it is not recognized and
`allowseek` is false fail fatally, otherwise scan for the next
recognized marker starting from the recorded position; then read the
archive id, filesystem id and dictionary.  Only the session archive id
`aiArchid` is consulted (`ai` is not mutated by this function). -/
def archreader_read_header (magics : List (List Nat)) (aiArchid : Nat)
    (s : ArchStream) (allowseek : Bool) : ReadHeaderOut :=
  let curpos := s.pos
  match archreader_read_data s FSA_SIZEOF_MAGIC with
  | none => ⟨ArchErr.fatal, List.replicate FSA_SIZEOF_MAGIC 0, FSA_FILESYSID_NULL, [], s⟩
  | some (magic0, s1) =>
    if is_magic_valid magics magic0 = false ∧ allowseek = false then
      ⟨ArchErr.fatal, magic0, FSA_FILESYSID_NULL, [], s1⟩
    else if is_magic_valid magics magic0 then
      archreader_read_header_rest aiArchid magic0 s1
    else
      match magic_scan magics s.data curpos with
      | none => ⟨ArchErr.fatal, magic0, FSA_FILESYSID_NULL, [], s1⟩
      | some (magic, p2) => archreader_read_header_rest aiArchid magic ⟨s.data, p2⟩

/-- The reader session state `carchreader` (struct s_archreader),
restricted to the fields read or written by the functions under
verification: base path, derived volume path, current volume index,
archive id, file-format version string and creator version string
(paths and strings as byte lists).  The remaining fields
(file descriptor, compression/encryption settings) do not influence
the modelled behaviour. -/
structure carchreader where
  basepath : List Nat
  volpath : List Nat
  curvol : Nat
  archid : Nat
  filefmt : List Nat
  creatver : List Nat
deriving DecidableEq, Repr

/-- `archreader_init` (src/archreader.c:35-47): zero-initialize the
state; in particular `archid = 0` (identity not yet established),
`curvol = 0`, and empty strings (a zeroed C char array has first byte
0, modelled as the empty list). -/
def archreader_init : carchreader :=
  { basepath := [], volpath := [], curvol := 0, archid := 0, filefmt := [], creatver := [] }

/-- Digit-accumulating helper for `nat_dec_ascii`; the fuel argument
only bounds the recursion and is always sufficient at the call site. -/
def nat_dec_ascii_aux : Nat → Nat → List Nat → List Nat
  | 0, n, acc => (48 + n % 10) :: acc
  | fuel + 1, n, acc =>
    if n < 10 then (48 + n) :: acc
    else nat_dec_ascii_aux fuel (n / 10) ((48 + n % 10) :: acc)

/-- ASCII decimal digits of a natural number (what `snprintf` with
`%ld` produces for a non-negative value). -/
def nat_dec_ascii (n : Nat) : List Nat :=
  nat_dec_ascii_aux n n []

/-- The numeric volume suffix of `archreader_volpath`
(src/archreader.c:304-307): `"%.2ld"` (zero-padded to two digits) for
volume numbers below 100, plain `"%ld"` for 100 and above. -/
def volnum_suffix (n : Nat) : List Nat :=
  if n < 100 then (if n < 10 then [48, 48 + n] else nat_dec_ascii n)
  else nat_dec_ascii n

/-- `archreader_volpath` (src/archreader.c:283-312): derive the volume
path from `basepath` and `curvol`.  Fails (returns -1, modelled
`none`, with `ai->volpath` untouched) when the base path is shorter
than 4 characters.  For volume 0 the path is the canonical
(symlink-resolved) base path when `realpath` succeeds —
`realpathRes = some c` models that OS result — and the base path
itself otherwise.  For volume `k ≥ 1` the path is the base path with
its last two characters dropped followed by the numeric suffix. -/
def archreader_volpath (realpathRes : Option (List Nat)) (ai : carchreader) :
    Option carchreader :=
  let pathlen := ai.basepath.length
  if pathlen < 4 then none
  else if ai.curvol = 0 then
    match realpathRes with
    | some c => some { ai with volpath := c }
    | none => some { ai with volpath := ai.basepath }
  else
    some { ai with volpath := ai.basepath.take (pathlen - 2) ++ volnum_suffix ai.curvol }

/-- `archreader_incvolume` (src/archreader.c:314-319): increment the
volume index, then recompute the path.  On a path failure the
increment of `curvol` has still happened in C; the claims under
verification only use the failure itself, so `none` is returned. -/
def archreader_incvolume (realpathRes : Option (List Nat)) (ai : carchreader) :
    Option carchreader :=
  archreader_volpath realpathRes { ai with curvol := ai.curvol + 1 }

/-- The distinct error exits of `archreader_read_volheader` (all
returned as -1 in C, distinguished there by the message printed). -/
inductive VolhErr where
  | headerFail : VolhErr
  | badMagic : VolhErr
  | noArchid : VolhErr
  | idMismatch : VolhErr
  | noVolnum : VolhErr
  | badVolnum : VolhErr
  | noFilefmt : VolhErr
  | fmtMismatch : VolhErr
  | noCreatver : VolhErr
deriving DecidableEq, Repr

/-- `archreader_read_volheader` (src/archreader.c:321-404): read a
header with resync disallowed; require the volume-header magic; fetch
the archive id from the dictionary — establish it if the session id is
0, otherwise require a match; require the volume number to equal
`curvol`; fetch the file-format version — establish it if unset,
otherwise require a match; fetch the creator version — establish it if
unset.  Returns the error exit taken (`none` on success) together with
the state as mutated up to that point (C mutations before a failing
check persist; the function reads no block).  `d` is destroyed on all
exits in C. -/
def archreader_read_volheader (magics : List (List Nat)) (ai : carchreader)
    (s : ArchStream) : Option VolhErr × carchreader :=
  let out := archreader_read_header magics ai.archid s false
  if out.res ≠ ArchErr.success then (some VolhErr.headerFail, ai)
  else if out.magic ≠ FSA_MAGIC_VOLH then (some VolhErr.badMagic, ai)
  else
    match dico_get_u32 out.d 0 VOLUMEHEADKEY_ARCHID with
    | none => (some VolhErr.noArchid, ai)
    | some readid =>
      if ai.archid ≠ 0 ∧ readid ≠ ai.archid then (some VolhErr.idMismatch, ai)
      else
        let ai1 := if ai.archid = 0 then { ai with archid := readid } else ai
        match dico_get_u32 out.d 0 VOLUMEHEADKEY_VOLNUM with
        | none => (some VolhErr.noVolnum, ai1)
        | some volnum =>
          if volnum ≠ ai1.curvol then (some VolhErr.badVolnum, ai1)
          else
            match dico_get_data out.d 0 VOLUMEHEADKEY_FILEFORMATVER FSA_MAX_FILEFMTLEN with
            | none => (some VolhErr.noFilefmt, ai1)
            | some filefmt =>
              if ai1.filefmt ≠ [] ∧ filefmt ≠ ai1.filefmt then
                (some VolhErr.fmtMismatch, ai1)
              else
                let ai2 := if ai1.filefmt = [] then { ai1 with filefmt := filefmt } else ai1
                match dico_get_data out.d 0 VOLUMEHEADKEY_PROGVERCREAT FSA_MAX_PROGVERLEN with
                | none => (some VolhErr.noCreatver, ai2)
                | some creatver =>
                  let ai3 := if ai2.creatver = [] then { ai2 with creatver := creatver } else ai2
                  (none, ai3)

/-- The `s_blockinfo` fields filled by `archreader_read_block`
(src/archreader.c:483-491): payload bytes and the sizes, offset,
checksum and algorithm ids copied from the block-header dictionary. -/
structure s_blockinfo where
  blkdata : List Nat
  blkrealsize : Nat
  blkoffset : Nat
  blkarcsum : Nat
  blkcompalgo : Nat
  blkcryptalgo : Nat
  blkarsize : Nat
  blkcompsize : Nat
deriving DecidableEq, Repr

/-- The tri-state `*sumok` out-parameter of `archreader_read_block`:
-1 (unknown), 1 (ok), 0 (corrupt) in C. -/
inductive TriState where
  | unknown : TriState
  | ok : TriState
  | corrupt : TriState
deriving DecidableEq, Repr

/-- Return code (0 or -1), `*sumok`, the produced `s_blockinfo` payload
(`none` when no payload fields were filled: error paths and the skip
path), and the stream after the call. -/
structure ReadBlockOut where
  ret : Int
  sumok : TriState
  blkinfo : Option s_blockinfo
  stream : ArchStream
deriving DecidableEq, Repr

/-- `archreader_read_block` (src/archreader.c:406-516): extract the
required fields from the block-header dictionary (the logical size is
rejected together with a missing field when it exceeds
`FSA_MAX_BLKSIZE`); when `skip` is set, seek forward by the on-disk
size `finalsize` and return success with no payload; otherwise read
`finalsize` bytes and compare their Fletcher-32 checksum with the
stored one: on mismatch return success with `*sumok = corrupt`, the
payload buffer replaced by `curblocksize` zero bytes, and the stream
seeked back by `finalsize`; on match return success with
`*sumok = ok` and the on-disk bytes as payload. -/
def archreader_read_block (blkdico : cdico) (s : ArchStream) (skip : Bool) : ReadBlockOut :=
  match dico_get_u64 blkdico 0 BLOCKHEADITEMKEY_BLOCKOFFSET with
  | none => ⟨-1, TriState.unknown, none, s⟩
  | some blockoffset =>
  match dico_get_u32 blkdico 0 BLOCKHEADITEMKEY_REALSIZE with
  | none => ⟨-1, TriState.unknown, none, s⟩
  | some curblocksize =>
  if curblocksize > FSA_MAX_BLKSIZE then ⟨-1, TriState.unknown, none, s⟩ else
  match dico_get_u16 blkdico 0 BLOCKHEADITEMKEY_COMPRESSALGO with
  | none => ⟨-1, TriState.unknown, none, s⟩
  | some compalgo =>
  match dico_get_u16 blkdico 0 BLOCKHEADITEMKEY_ENCRYPTALGO with
  | none => ⟨-1, TriState.unknown, none, s⟩
  | some cryptalgo =>
  match dico_get_u32 blkdico 0 BLOCKHEADITEMKEY_ARSIZE with
  | none => ⟨-1, TriState.unknown, none, s⟩
  | some finalsize =>
  match dico_get_u32 blkdico 0 BLOCKHEADITEMKEY_COMPSIZE with
  | none => ⟨-1, TriState.unknown, none, s⟩
  | some compsize =>
  match dico_get_u32 blkdico 0 BLOCKHEADITEMKEY_ARCSUM with
  | none => ⟨-1, TriState.unknown, none, s⟩
  | some arblockcsumorig =>
  if skip then
    ⟨0, TriState.unknown, none, { s with pos := s.pos + finalsize }⟩
  else
    match archreader_read_data s finalsize with
    | none => ⟨-1, TriState.unknown, none, s⟩
    | some (buffer, s2) =>
      if fletcher32 buffer ≠ arblockcsumorig then
        ⟨0, TriState.corrupt,
          some ⟨List.replicate curblocksize 0, curblocksize, blockoffset, arblockcsumorig,
                compalgo, cryptalgo, finalsize, compsize⟩,
          { s2 with pos := s2.pos - finalsize }⟩
      else
        ⟨0, TriState.ok,
          some ⟨buffer, curblocksize, blockoffset, arblockcsumorig,
                compalgo, cryptalgo, finalsize, compsize⟩,
          s2⟩

/-- Wire encoding of one dictionary record (witness-building helper;
modelled from the spec's wire format, the write path is not under
src/). -/
def encode_record (it : DicoItem) : List Nat :=
  [it.type % 256, it.sec % 256] ++ le_encode 2 it.key ++
    le_encode 2 it.data.length ++ it.data

/-- Wire encoding of a framed dictionary: 2-byte length, record count,
records, 4-byte Fletcher-32 checksum (witness-building helper;
modelled from the spec's wire format). -/
def encode_dico (d : cdico) : List Nat :=
  let body := le_encode 2 d.length ++ (d.map encode_record).flatten
  le_encode 2 body.length ++ body ++ le_encode 4 (fletcher32 body)

/-- Wire encoding of a full header: magic, archive id, filesystem id,
framed dictionary (witness-building helper; modelled from the spec's
wire format). -/
def encode_header (magic : List Nat) (archid fsid : Nat) (d : cdico) : List Nat :=
  magic ++ le_encode 4 archid ++ le_encode 2 fsid ++ encode_dico d

/-! ## Helper lemmas -/

theorem read_data_some (s : ArchStream) (n : Nat) (h : s.pos + n ≤ s.data.length) :
    archreader_read_data s n =
      some ((s.data.drop s.pos).take n, ⟨s.data, s.pos + n⟩) := by
  unfold archreader_read_data
  rw [if_pos h]

theorem read_data_shape (s : ArchStream) (n : Nat) (bs : List Nat) (s2 : ArchStream)
    (h : archreader_read_data s n = some (bs, s2)) :
    s2.data = s.data ∧ s2.pos = s.pos + n := by
  unfold archreader_read_data at h
  by_cases hle : s.pos + n ≤ s.data.length
  · rw [if_pos hle] at h
    cases h
    exact ⟨rfl, rfl⟩
  · rw [if_neg hle] at h
    cases h

/-! ## Claim theorems -/

/-- C9: for every base path shorter than 4 characters,
`archreader_volpath` fails (returns -1, with `ai->volpath` left
uncomputed, modelled by the `none` result carrying no updated state),
and so does `archreader_incvolume`, which calls it after incrementing
the volume index. -/
theorem C9_short_basepath_fails (r : Option (List Nat)) (ai : carchreader)
    (h : ai.basepath.length < 4) :
    archreader_volpath r ai = none ∧ archreader_incvolume r ai = none := by
  unfold archreader_incvolume archreader_volpath
  simp [h]

theorem C9_short_basepath_fails_witness :
    archreader_volpath none { archreader_init with basepath := [97, 98] } = none ∧
    archreader_incvolume none { archreader_init with basepath := [97, 98] } = none :=
  C9_short_basepath_fails none { archreader_init with basepath := [97, 98] } (by decide)

/-- C7: `archreader_volpath` derives the volume path deterministically
from (base path, volume index): index 0 yields the canonical
(symlink-resolved) base path when `realpath` succeeds and the base
path itself otherwise; index `k ≥ 1` yields the base path minus its
last two characters followed by `k` as a zero-padded two-digit decimal
string for `1 ≤ k ≤ 99` and as a plain decimal string for `k ≥ 100`;
in particular base path "backup.fsa" gives "backup.f01" for volume 1
and "backup.f100" for volume 100 (final two conjuncts, byte lists in
ASCII). -/
theorem C7_volpath_derivation (ai : carchreader) (c : List Nat) (r : Option (List Nat))
    (h : 4 ≤ ai.basepath.length) :
    (ai.curvol = 0 → archreader_volpath (some c) ai = some { ai with volpath := c }) ∧
    (ai.curvol = 0 → archreader_volpath none ai = some { ai with volpath := ai.basepath }) ∧
    (1 ≤ ai.curvol → ai.curvol ≤ 99 →
      archreader_volpath r ai = some { ai with volpath := ai.basepath.take (ai.basepath.length - 2) ++ (if ai.curvol < 10 then [48, 48 + ai.curvol] else nat_dec_ascii ai.curvol) }) ∧
    (100 ≤ ai.curvol →
      archreader_volpath r ai = some { ai with volpath := ai.basepath.take (ai.basepath.length - 2) ++ nat_dec_ascii ai.curvol }) ∧
    archreader_volpath none { archreader_init with basepath := [98, 97, 99, 107, 117, 112, 46, 102, 115, 97], curvol := 1 } =
      some { archreader_init with basepath := [98, 97, 99, 107, 117, 112, 46, 102, 115, 97], curvol := 1, volpath := [98, 97, 99, 107, 117, 112, 46, 102, 48, 49] } ∧
    archreader_volpath none { archreader_init with basepath := [98, 97, 99, 107, 117, 112, 46, 102, 115, 97], curvol := 100 } =
      some { archreader_init with basepath := [98, 97, 99, 107, 117, 112, 46, 102, 115, 97], curvol := 100, volpath := [98, 97, 99, 107, 117, 112, 46, 102, 49, 48, 48] } := by
  refine ⟨?_, ?_, ?_, ?_, by decide, by decide⟩
  · intro h0
    unfold archreader_volpath
    rw [if_neg (by omega), if_pos h0]
  · intro h0
    unfold archreader_volpath
    rw [if_neg (by omega), if_pos h0]
  · intro h1 h99
    unfold archreader_volpath
    rw [if_neg (by omega), if_neg (by omega)]
    unfold volnum_suffix
    rw [if_pos (by omega)]
  · intro h100
    unfold archreader_volpath
    rw [if_neg (by omega), if_neg (by omega)]
    unfold volnum_suffix
    rw [if_neg (by omega)]

/-- The base path "backup.fsa" of the spec's path-derivation example,
as ASCII bytes (witness input). -/
def backup_fsa : List Nat := [98, 97, 99, 107, 117, 112, 46, 102, 115, 97]

theorem C7_volpath_derivation_witness :
    (({ archreader_init with basepath := backup_fsa } : carchreader).curvol = 0 →
      archreader_volpath (some [47, 120]) { archreader_init with basepath := backup_fsa } = some { ({ archreader_init with basepath := backup_fsa } : carchreader) with volpath := [47, 120] }) ∧
    (({ archreader_init with basepath := backup_fsa } : carchreader).curvol = 0 →
      archreader_volpath none { archreader_init with basepath := backup_fsa } = some { ({ archreader_init with basepath := backup_fsa } : carchreader) with volpath := ({ archreader_init with basepath := backup_fsa } : carchreader).basepath }) ∧
    (1 ≤ ({ archreader_init with basepath := backup_fsa } : carchreader).curvol → ({ archreader_init with basepath := backup_fsa } : carchreader).curvol ≤ 99 →
      archreader_volpath none { archreader_init with basepath := backup_fsa } = some { ({ archreader_init with basepath := backup_fsa } : carchreader) with volpath := ({ archreader_init with basepath := backup_fsa } : carchreader).basepath.take (({ archreader_init with basepath := backup_fsa } : carchreader).basepath.length - 2) ++ (if ({ archreader_init with basepath := backup_fsa } : carchreader).curvol < 10 then [48, 48 + ({ archreader_init with basepath := backup_fsa } : carchreader).curvol] else nat_dec_ascii ({ archreader_init with basepath := backup_fsa } : carchreader).curvol) }) ∧
    (100 ≤ ({ archreader_init with basepath := backup_fsa } : carchreader).curvol →
      archreader_volpath none { archreader_init with basepath := backup_fsa } = some { ({ archreader_init with basepath := backup_fsa } : carchreader) with volpath := ({ archreader_init with basepath := backup_fsa } : carchreader).basepath.take (({ archreader_init with basepath := backup_fsa } : carchreader).basepath.length - 2) ++ nat_dec_ascii ({ archreader_init with basepath := backup_fsa } : carchreader).curvol }) ∧
    archreader_volpath none { archreader_init with basepath := [98, 97, 99, 107, 117, 112, 46, 102, 115, 97], curvol := 1 } =
      some { archreader_init with basepath := [98, 97, 99, 107, 117, 112, 46, 102, 115, 97], curvol := 1, volpath := [98, 97, 99, 107, 117, 112, 46, 102, 48, 49] } ∧
    archreader_volpath none { archreader_init with basepath := [98, 97, 99, 107, 117, 112, 46, 102, 115, 97], curvol := 100 } =
      some { archreader_init with basepath := [98, 97, 99, 107, 117, 112, 46, 102, 115, 97], curvol := 100, volpath := [98, 97, 99, 107, 117, 112, 46, 102, 49, 48, 48] } :=
  C7_volpath_derivation { archreader_init with basepath := backup_fsa } [47, 120] none (by decide)

/-- C8: with `skip = true` and a block-header dictionary from which
all required fields extract (in the code the logical-size bound
`curblocksize ≤ FSA_MAX_BLKSIZE` is part of the same extraction
check), `archreader_read_block` allocates no payload buffer (no
`s_blockinfo` payload is produced), advances the stream position
forward by exactly the on-disk byte count `fin`, and returns
success (0). -/
theorem C8_skip_advances (blkdico : cdico) (s : ArchStream)
    (off rs ca ea fin cs sum : Nat)
    (h1 : dico_get_u64 blkdico 0 BLOCKHEADITEMKEY_BLOCKOFFSET = some off)
    (h2 : dico_get_u32 blkdico 0 BLOCKHEADITEMKEY_REALSIZE = some rs)
    (h3 : rs ≤ FSA_MAX_BLKSIZE)
    (h4 : dico_get_u16 blkdico 0 BLOCKHEADITEMKEY_COMPRESSALGO = some ca)
    (h5 : dico_get_u16 blkdico 0 BLOCKHEADITEMKEY_ENCRYPTALGO = some ea)
    (h6 : dico_get_u32 blkdico 0 BLOCKHEADITEMKEY_ARSIZE = some fin)
    (h7 : dico_get_u32 blkdico 0 BLOCKHEADITEMKEY_COMPSIZE = some cs)
    (h8 : dico_get_u32 blkdico 0 BLOCKHEADITEMKEY_ARCSUM = some sum) :
    archreader_read_block blkdico s true =
      ⟨0, TriState.unknown, none, ⟨s.data, s.pos + fin⟩⟩ := by
  simp only [archreader_read_block, h1, h2, h4, h5, h6, h7, h8]
  rw [if_neg (by omega)]
  simp

/-- A concrete block-header dictionary for the block-reader witnesses:
offset 4096, logical size 5, algorithms 0, on-disk size 3, compressed
size 3, stored checksum 99. -/
def blockdico_ex : cdico :=
  [⟨1, 0, BLOCKHEADITEMKEY_BLOCKOFFSET, le_encode 8 4096⟩,
   ⟨1, 0, BLOCKHEADITEMKEY_REALSIZE, le_encode 4 5⟩,
   ⟨1, 0, BLOCKHEADITEMKEY_COMPRESSALGO, le_encode 2 0⟩,
   ⟨1, 0, BLOCKHEADITEMKEY_ENCRYPTALGO, le_encode 2 0⟩,
   ⟨1, 0, BLOCKHEADITEMKEY_ARSIZE, le_encode 4 3⟩,
   ⟨1, 0, BLOCKHEADITEMKEY_COMPSIZE, le_encode 4 3⟩,
   ⟨1, 0, BLOCKHEADITEMKEY_ARCSUM, le_encode 4 99⟩]

theorem C8_skip_advances_witness :
    archreader_read_block blockdico_ex ⟨[10, 20, 30, 40], 0⟩ true =
      ⟨0, TriState.unknown, none, ⟨(⟨[10, 20, 30, 40], 0⟩ : ArchStream).data, (⟨[10, 20, 30, 40], 0⟩ : ArchStream).pos + 3⟩⟩ :=
  C8_skip_advances blockdico_ex ⟨[10, 20, 30, 40], 0⟩ 4096 5 0 0 3 3 99
    (by decide) (by decide) (by decide) (by decide) (by decide) (by decide) (by decide) (by decide)

/-- C3: with `skip = false`, all required fields extracted, the
on-disk payload of `fin` bytes read, and its Fletcher-32 checksum
differing from the stored checksum, `archreader_read_block` returns
success (0, not fatal), sets the tri-state result to corrupt, replaces
the payload buffer by a freshly allocated buffer of exactly the
logical size `rs` filled with zero bytes, and moves the stream
backward by exactly the on-disk byte count `fin` from the post-read
position (`s2.pos = s.pos + fin`, final position `s.pos`). -/
theorem C3_corrupt_block_recovery (blkdico : cdico) (s s2 : ArchStream) (buf : List Nat)
    (off rs ca ea fin cs sum : Nat)
    (h1 : dico_get_u64 blkdico 0 BLOCKHEADITEMKEY_BLOCKOFFSET = some off)
    (h2 : dico_get_u32 blkdico 0 BLOCKHEADITEMKEY_REALSIZE = some rs)
    (h3 : rs ≤ FSA_MAX_BLKSIZE)
    (h4 : dico_get_u16 blkdico 0 BLOCKHEADITEMKEY_COMPRESSALGO = some ca)
    (h5 : dico_get_u16 blkdico 0 BLOCKHEADITEMKEY_ENCRYPTALGO = some ea)
    (h6 : dico_get_u32 blkdico 0 BLOCKHEADITEMKEY_ARSIZE = some fin)
    (h7 : dico_get_u32 blkdico 0 BLOCKHEADITEMKEY_COMPSIZE = some cs)
    (h8 : dico_get_u32 blkdico 0 BLOCKHEADITEMKEY_ARCSUM = some sum)
    (h9 : archreader_read_data s fin = some (buf, s2))
    (h10 : fletcher32 buf ≠ sum) :
    archreader_read_block blkdico s false =
      ⟨0, TriState.corrupt, some ⟨List.replicate rs 0, rs, off, sum, ca, ea, fin, cs⟩, ⟨s.data, s.pos⟩⟩ ∧
    s2.pos = s.pos + fin := by
  obtain ⟨hdata, hpos⟩ := read_data_shape s fin buf s2 h9
  constructor
  · simp only [archreader_read_block, h1, h2, h4, h5, h6, h7, h8, h9]
    rw [if_neg (by omega)]
    simp only [Bool.false_eq_true, if_false]
    rw [if_pos h10]
    have : s2.pos - fin = s.pos := by omega
    rw [hdata, this]
  · exact hpos

theorem C3_corrupt_block_recovery_witness :
    (archreader_read_block blockdico_ex ⟨[10, 20, 30, 40], 0⟩ false =
      ⟨0, TriState.corrupt, some ⟨List.replicate 5 0, 5, 4096, 99, 0, 0, 3, 3⟩, ⟨(⟨[10, 20, 30, 40], 0⟩ : ArchStream).data, (⟨[10, 20, 30, 40], 0⟩ : ArchStream).pos⟩⟩ ∧
    (⟨[10, 20, 30, 40], 3⟩ : ArchStream).pos = (⟨[10, 20, 30, 40], 0⟩ : ArchStream).pos + 3) :=
  C3_corrupt_block_recovery blockdico_ex ⟨[10, 20, 30, 40], 0⟩ ⟨[10, 20, 30, 40], 3⟩
    [10, 20, 30] 4096 5 0 0 3 3 99
    (by decide) (by decide) (by decide) (by decide) (by decide) (by decide) (by decide) (by decide)
    (by decide) (by decide)

/-- C5: whenever the `L`-byte record region of a header read by
`archreader_read_dico` does not match its stored 4-byte Fletcher-32
checksum, the call frees the buffer (allocation is not observable in
the model) and returns the recoverable `ERR_MINOR` — the record
contents are never parsed (the dictionary is returned exactly as it
was passed in) and the severity is not fatal. -/
theorem C5_checksum_mismatch_minor (s s1 s2 s3 : ArchStream) (d : cdico)
    (lb buf sb : List Nat)
    (h1 : archreader_read_data s 2 = some (lb, s1))
    (h2 : archreader_read_data s1 (le_decode lb) = some (buf, s2))
    (h3 : archreader_read_data s2 4 = some (sb, s3))
    (hne : fletcher32 buf ≠ le_decode sb) :
    archreader_read_dico s d = (ArchErr.minor, d, s3) ∧ ArchErr.minor ≠ ArchErr.fatal := by
  refine ⟨?_, by decide⟩
  simp only [archreader_read_dico, h1, h2, h3]
  rw [if_pos hne]

/-- An encoded header-dictionary region with one byte flipped: the
correctly encoded empty dictionary is `[2,0, 0,0, c0,c1,c2,c3]`
(length 2, record count 0, checksum of `[0,0]`); here the first byte
of the record region is flipped to 1 while the stored checksum is left
as the checksum of the original bytes. -/
def flipped_dico_stream : ArchStream :=
  ⟨le_encode 2 2 ++ [1, 0] ++ le_encode 4 (fletcher32 [0, 0]), 0⟩

theorem C5_checksum_mismatch_minor_witness :
    archreader_read_dico flipped_dico_stream [] = (ArchErr.minor, [], ⟨flipped_dico_stream.data, 8⟩) ∧ ArchErr.minor ≠ ArchErr.fatal :=
  C5_checksum_mismatch_minor flipped_dico_stream ⟨flipped_dico_stream.data, 2⟩
    ⟨flipped_dico_stream.data, 4⟩ ⟨flipped_dico_stream.data, 8⟩ [] [2, 0] [1, 0]
    (le_encode 4 (fletcher32 [0, 0]))
    (by decide) (by decide) (by decide) (by decide)

/-- C2 (code bug): a header buffer that passes the checksum but whose
single record declares a payload size (200) extending far past the end
of the 8-byte buffer.  The C parse loop of `archreader_read_dico`
(src/archreader.c:171-195) performs no bounds check against
`headerlen`, so the `memcpy` of the payload reads out of bounds of the
malloc'ed buffer (modelled by the `ArchErr.oob` outcome) instead of
rejecting the record with a fatal decode error as the claim requires.
The second conjunct checks that the stored checksum does match the
record region, i.e. the checksum gate is passed. -/
theorem C2_oob_read_demonstration :
    (archreader_read_dico ⟨le_encode 2 8 ++ [1, 0, 5, 9, 7, 0, 200, 0] ++ le_encode 4 (fletcher32 [1, 0, 5, 9, 7, 0, 200, 0]), 0⟩ []).1 = ArchErr.oob ∧
    le_decode (le_encode 4 (fletcher32 [1, 0, 5, 9, 7, 0, 200, 0])) = fletcher32 [1, 0, 5, 9, 7, 0, 200, 0] := by
  decide

/-- C1 (corrected): when the session archive identity is established
(`ai->archid` nonzero) and the identity field of a header read by
`archreader_read_header` differs from it, the call fails — but with
the recoverable `ERR_MINOR` (src/archreader.c:262), not the fatal
error the original claim states. -/
theorem C1_id_mismatch_is_minor (magics : List (List Nat)) (aiArchid : Nat)
    (allowseek : Bool) (s s1 s3 : ArchStream) (m idb : List Nat)
    (hm : archreader_read_data s FSA_SIZEOF_MAGIC = some (m, s1))
    (hv : is_magic_valid magics m = true)
    (hid : archreader_read_data s1 4 = some (idb, s3))
    (h0 : aiArchid ≠ 0)
    (hne : le_decode idb ≠ aiArchid) :
    archreader_read_header magics aiArchid s allowseek =
      ⟨ArchErr.minor, m, FSA_FILESYSID_NULL, [], s3⟩ ∧
    ArchErr.minor ≠ ArchErr.fatal := by
  refine ⟨?_, by decide⟩
  simp only [archreader_read_header, hm, hv]
  simp only [Bool.true_eq_false, false_and, if_false, if_true]
  simp only [archreader_read_header_rest, hid]
  rw [if_pos ⟨h0, hne⟩]

/-- An 8-byte stream-header magic for the C1 and C4 witnesses. -/
def magic_ex : List Nat := [77, 77, 77, 77, 77, 77, 77, 77]

theorem C1_id_mismatch_is_minor_witness :
    archreader_read_header [magic_ex] 1 ⟨magic_ex ++ [2, 0, 0, 0], 0⟩ true =
      ⟨ArchErr.minor, magic_ex, FSA_FILESYSID_NULL, [], ⟨magic_ex ++ [2, 0, 0, 0], 12⟩⟩ ∧
    ArchErr.minor ≠ ArchErr.fatal :=
  C1_id_mismatch_is_minor [magic_ex] 1 true ⟨magic_ex ++ [2, 0, 0, 0], 0⟩
    ⟨magic_ex ++ [2, 0, 0, 0], 8⟩ ⟨magic_ex ++ [2, 0, 0, 0], 12⟩ magic_ex [2, 0, 0, 0]
    (by decide) (by decide) (by decide) (by decide) (by decide)

/-- C1 counterexample: a concrete call with established identity 1 and
header identity 2 returns `ERR_MINOR`, not the fatal error the claim
states (the identity field is the 4 bytes `[2,0,0,0]` following the
valid magic). -/
theorem C1_counterexample :
    (archreader_read_header [[77, 77, 77, 77, 77, 77, 77, 77]] 1 ⟨[77, 77, 77, 77, 77, 77, 77, 77, 2, 0, 0, 0], 0⟩ true).res = ArchErr.minor ∧
    ArchErr.minor ≠ ArchErr.fatal := by
  decide

theorem magic_scan_found (magics : List (List Nat)) (data : List Nat) (p N : Nat)
    (hlen : p + N + FSA_SIZEOF_MAGIC ≤ data.length)
    (hval : is_magic_valid magics ((data.drop (p + N)).take FSA_SIZEOF_MAGIC) = true)
    (hinv : ∀ k, k < N → is_magic_valid magics ((data.drop (p + k)).take FSA_SIZEOF_MAGIC) = false) :
    magic_scan magics data p =
      some ((data.drop (p + N)).take FSA_SIZEOF_MAGIC, p + N + FSA_SIZEOF_MAGIC) := by
  induction N generalizing p with
  | zero =>
    unfold magic_scan
    rw [dif_pos (by simpa using hlen)]
    rw [if_pos (by simpa using hval)]
    simp
  | succ n ih =>
    unfold magic_scan
    rw [dif_pos (by simp only [FSA_SIZEOF_MAGIC] at hlen ⊢; omega)]
    have h0 := hinv 0 (by omega)
    rw [if_neg (by simp [Nat.add_zero] at h0; simp [h0])]
    have e1 : p + (n + 1) = (p + 1) + n := by omega
    rw [e1] at hval hlen ⊢
    exact ih (p + 1) hlen hval (fun k hk => by
      have := hinv (k + 1) (by omega)
      have e2 : p + (k + 1) = (p + 1) + k := by omega
      rwa [e2] at this)

/-- C4: at a stream position `p` where the magic window is not a
recognized marker, `archreader_read_header` fails fatally when
`allow_resync` is false (first conjunct, for `N ≥ 1` garbage bytes at
`p`); when resync is allowed, the scanner re-reads the magic-length
window at candidate offsets `p`, `p+1`, `p+2`, … and, with `N` garbage
bytes followed by a valid marker (no window starting inside the
garbage is recognized), locates the marker after exactly `N`
single-byte advances and never before, leaving the stream positioned
immediately after that marker (second conjunct); the third conjunct
shows `archreader_read_header` with `allow_resync = true` continuing
from exactly that position with exactly that magic. -/
theorem C4_resync_scanner (magics : List (List Nat)) (aiArchid : Nat)
    (s : ArchStream) (N : Nat)
    (hlen : s.pos + N + FSA_SIZEOF_MAGIC ≤ s.data.length)
    (hval : is_magic_valid magics ((s.data.drop (s.pos + N)).take FSA_SIZEOF_MAGIC) = true)
    (hinv : ∀ k, k < N → is_magic_valid magics ((s.data.drop (s.pos + k)).take FSA_SIZEOF_MAGIC) = false) :
    (1 ≤ N → (archreader_read_header magics aiArchid s false).res = ArchErr.fatal) ∧
    magic_scan magics s.data s.pos =
      some ((s.data.drop (s.pos + N)).take FSA_SIZEOF_MAGIC, s.pos + N + FSA_SIZEOF_MAGIC) ∧
    archreader_read_header magics aiArchid s true =
      archreader_read_header_rest aiArchid ((s.data.drop (s.pos + N)).take FSA_SIZEOF_MAGIC)
        ⟨s.data, s.pos + N + FSA_SIZEOF_MAGIC⟩ := by
  have hscan := magic_scan_found magics s.data s.pos N hlen hval hinv
  have hrd : archreader_read_data s FSA_SIZEOF_MAGIC =
      some ((s.data.drop s.pos).take FSA_SIZEOF_MAGIC, ⟨s.data, s.pos + FSA_SIZEOF_MAGIC⟩) :=
    read_data_some s FSA_SIZEOF_MAGIC (by omega)
  refine ⟨?_, hscan, ?_⟩
  · intro hN
    have h0 := hinv 0 (by omega)
    simp only [Nat.add_zero] at h0
    simp only [archreader_read_header, hrd]
    rw [if_pos (by simp [h0])]
  · by_cases hN : 1 ≤ N
    · have h0 := hinv 0 (by omega)
      simp only [Nat.add_zero] at h0
      simp only [archreader_read_header, hrd]
      rw [if_neg (by simp [h0])]
      rw [if_neg (by simp [h0])]
      rw [hscan]
    · have hN0 : N = 0 := by omega
      subst hN0
      simp only [Nat.add_zero] at hval hlen ⊢
      simp only [archreader_read_header, hrd]
      rw [if_neg (by simp [hval])]
      rw [if_pos hval]

theorem C4_resync_scanner_witness :
    (1 ≤ 3 → (archreader_read_header [magic_ex] 0 ⟨[1, 2, 3] ++ magic_ex, 0⟩ false).res = ArchErr.fatal) ∧
    magic_scan [magic_ex] (⟨[1, 2, 3] ++ magic_ex, 0⟩ : ArchStream).data (⟨[1, 2, 3] ++ magic_ex, 0⟩ : ArchStream).pos =
      some ((((⟨[1, 2, 3] ++ magic_ex, 0⟩ : ArchStream).data.drop ((⟨[1, 2, 3] ++ magic_ex, 0⟩ : ArchStream).pos + 3)).take FSA_SIZEOF_MAGIC), (⟨[1, 2, 3] ++ magic_ex, 0⟩ : ArchStream).pos + 3 + FSA_SIZEOF_MAGIC) ∧
    archreader_read_header [magic_ex] 0 ⟨[1, 2, 3] ++ magic_ex, 0⟩ true =
      archreader_read_header_rest 0 (((⟨[1, 2, 3] ++ magic_ex, 0⟩ : ArchStream).data.drop ((⟨[1, 2, 3] ++ magic_ex, 0⟩ : ArchStream).pos + 3)).take FSA_SIZEOF_MAGIC)
        ⟨(⟨[1, 2, 3] ++ magic_ex, 0⟩ : ArchStream).data, (⟨[1, 2, 3] ++ magic_ex, 0⟩ : ArchStream).pos + 3 + FSA_SIZEOF_MAGIC⟩ :=
  C4_resync_scanner [magic_ex] 0 ⟨[1, 2, 3] ++ magic_ex, 0⟩ 3
    (by decide) (by decide) (by decide)

/-- C6: `archreader_read_volheader` on the first volume (session
archive id 0, file-format string unset) establishes the archive id and
file-format version read from the volume header (conjunct 1); for a
later volume it fails — returns nonzero, and it reads no block: the
function only ever reads the one header — whenever the header's
identity differs from the established one (conjunct 2, the exact
error exit), or the volume number differs from the expected index
(conjunct 3), or the format version differs from the established one
(conjunct 4); and it never overwrites an established identity or
format version, on any path (conjuncts 5 and 6). -/
theorem C6_volheader_invariants (magics : List (List Nat)) (ai : carchreader)
    (s s5 : ArchStream) (fsid readid volnum : Nat) (d : cdico) (ff cv : List Nat)
    (hhdr : archreader_read_header magics ai.archid s false = ⟨ArchErr.success, FSA_MAGIC_VOLH, fsid, d, s5⟩)
    (hid : dico_get_u32 d 0 VOLUMEHEADKEY_ARCHID = some readid)
    (hvn : dico_get_u32 d 0 VOLUMEHEADKEY_VOLNUM = some volnum)
    (hff : dico_get_data d 0 VOLUMEHEADKEY_FILEFORMATVER FSA_MAX_FILEFMTLEN = some ff)
    (hcv : dico_get_data d 0 VOLUMEHEADKEY_PROGVERCREAT FSA_MAX_PROGVERLEN = some cv) :
    (ai.archid = 0 → ai.filefmt = [] → (archreader_read_volheader magics ai s).1 = none →
      (archreader_read_volheader magics ai s).2.archid = readid ∧
      (archreader_read_volheader magics ai s).2.filefmt = ff) ∧
    (ai.archid ≠ 0 → readid ≠ ai.archid →
      archreader_read_volheader magics ai s = (some VolhErr.idMismatch, ai)) ∧
    (volnum ≠ ai.curvol → (archreader_read_volheader magics ai s).1 ≠ none) ∧
    (ai.filefmt ≠ [] → ff ≠ ai.filefmt → (archreader_read_volheader magics ai s).1 ≠ none) ∧
    (ai.archid ≠ 0 → (archreader_read_volheader magics ai s).2.archid = ai.archid) ∧
    (ai.filefmt ≠ [] → (archreader_read_volheader magics ai s).2.filefmt = ai.filefmt) := by
  simp only [archreader_read_volheader, hhdr, hid, hvn, hff, hcv, ne_eq,
    not_true_eq_false, if_false]
  refine ⟨?_, ?_, ?_, ?_, ?_, ?_⟩
  · intro hA hF
    simp [hA, hF]
    split_ifs <;> simp_all
  · intro hA hne
    simp [hA, hne]
  · intro hvne
    by_cases hA : ai.archid = 0 <;> by_cases hF : ai.filefmt = [] <;>
      simp [hA, hF, hvne] <;> split_ifs <;> simp_all
  · intro hF hfne
    by_cases hA : ai.archid = 0 <;> simp [hA, hF, hfne] <;> split_ifs <;> simp_all
  · intro hA
    by_cases hF : ai.filefmt = [] <;> simp [hA, hF] <;> split_ifs <;> simp_all
  · intro hF
    by_cases hA : ai.archid = 0 <;> simp [hA, hF] <;> split_ifs <;> simp_all

/-- A concrete volume-header dictionary for the C6 witness: archive id
2, volume number 0, format string [65], creator string [66]. -/
def volh_dico_w : cdico :=
  [⟨1, 0, VOLUMEHEADKEY_ARCHID, le_encode 4 2⟩,
   ⟨1, 0, VOLUMEHEADKEY_VOLNUM, le_encode 4 0⟩,
   ⟨2, 0, VOLUMEHEADKEY_FILEFORMATVER, [65]⟩,
   ⟨2, 0, VOLUMEHEADKEY_PROGVERCREAT, [66]⟩]

/-- The C6 witness stream: an encoded volume header with wire-level
archive id 1 and dictionary archive id 2. -/
def volh_stream_w : ArchStream := ⟨encode_header FSA_MAGIC_VOLH 1 65535 volh_dico_w, 0⟩

/-- The C6 witness session state: archive id 1 and format string [65]
already established. -/
def ai_w : carchreader := { archreader_init with archid := 1, filefmt := [65] }

theorem C6_volheader_invariants_witness :
    (ai_w.archid = 0 → ai_w.filefmt = [] → (archreader_read_volheader [FSA_MAGIC_VOLH] ai_w volh_stream_w).1 = none →
      (archreader_read_volheader [FSA_MAGIC_VOLH] ai_w volh_stream_w).2.archid = 2 ∧
      (archreader_read_volheader [FSA_MAGIC_VOLH] ai_w volh_stream_w).2.filefmt = [65]) ∧
    (ai_w.archid ≠ 0 → (2 : Nat) ≠ ai_w.archid →
      archreader_read_volheader [FSA_MAGIC_VOLH] ai_w volh_stream_w = (some VolhErr.idMismatch, ai_w)) ∧
    ((0 : Nat) ≠ ai_w.curvol → (archreader_read_volheader [FSA_MAGIC_VOLH] ai_w volh_stream_w).1 ≠ none) ∧
    (ai_w.filefmt ≠ [] → [65] ≠ ai_w.filefmt → (archreader_read_volheader [FSA_MAGIC_VOLH] ai_w volh_stream_w).1 ≠ none) ∧
    (ai_w.archid ≠ 0 → (archreader_read_volheader [FSA_MAGIC_VOLH] ai_w volh_stream_w).2.archid = ai_w.archid) ∧
    (ai_w.filefmt ≠ [] → (archreader_read_volheader [FSA_MAGIC_VOLH] ai_w volh_stream_w).2.filefmt = ai_w.filefmt) :=
  C6_volheader_invariants [FSA_MAGIC_VOLH] ai_w volh_stream_w ⟨volh_stream_w.data, 56⟩
    65535 2 0 volh_dico_w [65] [66]
    (by decide) (by decide) (by decide) (by decide) (by decide)

/-- C10 (corrected): archive identity 0 doubles as the "not yet
established" sentinel — while the session identity is 0, the identity
check after the archive-id read in `archreader_read_header` is skipped
entirely, whatever identity the header reports (conjunct 1: the
function proceeds directly to the post-identity stage), and the
identity check of `archreader_read_volheader` can never fail
(conjunct 2).  But the claim's "every subsequent volume passes" is
wrong: a volume that reports a nonzero identity *establishes* it
(conjunct 3), and volumes after that must match it (see the
counterexample). -/
theorem C10_zero_id_passes (magics : List (List Nat)) (ai : carchreader)
    (s s' s2 s5 : ArchStream) (m idb : List Nat) (fsid readid volnum : Nat)
    (d : cdico) (ff cv : List Nat)
    (h4 : archreader_read_data s' 4 = some (idb, s2))
    (hhdr : archreader_read_header magics ai.archid s false = ⟨ArchErr.success, FSA_MAGIC_VOLH, fsid, d, s5⟩)
    (hid : dico_get_u32 d 0 VOLUMEHEADKEY_ARCHID = some readid)
    (hvn : dico_get_u32 d 0 VOLUMEHEADKEY_VOLNUM = some volnum)
    (hff : dico_get_data d 0 VOLUMEHEADKEY_FILEFORMATVER FSA_MAX_FILEFMTLEN = some ff)
    (hcv : dico_get_data d 0 VOLUMEHEADKEY_PROGVERCREAT FSA_MAX_PROGVERLEN = some cv) :
    (archreader_read_header_rest 0 m s' = read_header_after_id m s2) ∧
    (ai.archid = 0 → (archreader_read_volheader magics ai s).1 ≠ some VolhErr.idMismatch) ∧
    (ai.archid = 0 → (archreader_read_volheader magics ai s).1 = none →
      (archreader_read_volheader magics ai s).2.archid = readid) := by
  refine ⟨?_, ?_, ?_⟩
  · simp only [archreader_read_header_rest, h4]
    rw [if_neg (by simp)]
  · intro hA
    simp only [archreader_read_volheader, hhdr, hid, hvn, hff, hcv, ne_eq, hA,
      not_true_eq_false, if_false]
    simp
    split_ifs <;> simp_all <;> split_ifs <;> simp_all
  · intro hA
    simp only [archreader_read_volheader, hhdr, hid, hvn, hff, hcv, ne_eq, hA,
      not_true_eq_false, if_false]
    simp
    split_ifs <;> simp_all <;> split_ifs <;> simp_all

/-- The C10 witness stream: a volume header whose dictionary reports
archive identity 5 while the session identity is still 0. -/
def zero_id_stream_w : ArchStream :=
  ⟨encode_header FSA_MAGIC_VOLH 0 65535
    [⟨1, 0, VOLUMEHEADKEY_ARCHID, le_encode 4 5⟩,
     ⟨1, 0, VOLUMEHEADKEY_VOLNUM, le_encode 4 0⟩,
     ⟨2, 0, VOLUMEHEADKEY_FILEFORMATVER, [65]⟩,
     ⟨2, 0, VOLUMEHEADKEY_PROGVERCREAT, [66]⟩], 0⟩

theorem C10_zero_id_passes_witness :
    (archreader_read_header_rest 0 [9, 9, 9, 9, 9, 9, 9, 9] ⟨[1, 2, 3, 4], 0⟩ = read_header_after_id [9, 9, 9, 9, 9, 9, 9, 9] ⟨[1, 2, 3, 4], 4⟩) ∧
    (archreader_init.archid = 0 → (archreader_read_volheader [FSA_MAGIC_VOLH] archreader_init zero_id_stream_w).1 ≠ some VolhErr.idMismatch) ∧
    (archreader_init.archid = 0 → (archreader_read_volheader [FSA_MAGIC_VOLH] archreader_init zero_id_stream_w).1 = none →
      (archreader_read_volheader [FSA_MAGIC_VOLH] archreader_init zero_id_stream_w).2.archid = 5) :=
  C10_zero_id_passes [FSA_MAGIC_VOLH] archreader_init zero_id_stream_w ⟨[1, 2, 3, 4], 0⟩
    ⟨[1, 2, 3, 4], 4⟩ ⟨zero_id_stream_w.data, 56⟩ [9, 9, 9, 9, 9, 9, 9, 9] [1, 2, 3, 4]
    65535 5 0
    [⟨1, 0, VOLUMEHEADKEY_ARCHID, le_encode 4 5⟩,
     ⟨1, 0, VOLUMEHEADKEY_VOLNUM, le_encode 4 0⟩,
     ⟨2, 0, VOLUMEHEADKEY_FILEFORMATVER, [65]⟩,
     ⟨2, 0, VOLUMEHEADKEY_PROGVERCREAT, [66]⟩]
    [65] [66]
    (by decide) (by decide) (by decide) (by decide) (by decide) (by decide)

/-- A volume-header dictionary reporting archive id `id` and volume
number `vn` (C10 counterexample data). -/
def mkvol_dico (id vn : Nat) : cdico :=
  [⟨1, 0, VOLUMEHEADKEY_ARCHID, le_encode 4 id⟩,
   ⟨1, 0, VOLUMEHEADKEY_VOLNUM, le_encode 4 vn⟩,
   ⟨2, 0, VOLUMEHEADKEY_FILEFORMATVER, [65]⟩,
   ⟨2, 0, VOLUMEHEADKEY_PROGVERCREAT, [66]⟩]

/-- C10 counterexample: a session whose first volume reports archive
identity 0 does *not* let every subsequent volume pass the identity
checks.  Volume 0 reports id 0 (identity stays 0); volume 1 reports
id 5, passes, and establishes id 5; volume 2 reports id 7 and the
identity check in `archreader_read_volheader` fails with the
id-mismatch error — contradicting "every subsequent volume, whatever
identity its header reports, passes the identity checks".  Each step
is evaluated on explicit concrete states and streams, with
`archreader_incvolume` advancing the volume index in between. -/
theorem C10_counterexample :
    archreader_read_volheader [FSA_MAGIC_VOLH]
        { archreader_init with basepath := [116, 101, 115, 116, 46, 102, 115, 97] }
        ⟨encode_header FSA_MAGIC_VOLH 0 65535 (mkvol_dico 0 0), 0⟩ =
      (none, ⟨[116, 101, 115, 116, 46, 102, 115, 97], [], 0, 0, [65], [66]⟩) ∧
    archreader_incvolume none ⟨[116, 101, 115, 116, 46, 102, 115, 97], [], 0, 0, [65], [66]⟩ =
      some ⟨[116, 101, 115, 116, 46, 102, 115, 97], [116, 101, 115, 116, 46, 102, 48, 49], 1, 0, [65], [66]⟩ ∧
    archreader_read_volheader [FSA_MAGIC_VOLH]
        ⟨[116, 101, 115, 116, 46, 102, 115, 97], [116, 101, 115, 116, 46, 102, 48, 49], 1, 0, [65], [66]⟩
        ⟨encode_header FSA_MAGIC_VOLH 5 65535 (mkvol_dico 5 1), 0⟩ =
      (none, ⟨[116, 101, 115, 116, 46, 102, 115, 97], [116, 101, 115, 116, 46, 102, 48, 49], 1, 5, [65], [66]⟩) ∧
    archreader_incvolume none ⟨[116, 101, 115, 116, 46, 102, 115, 97], [116, 101, 115, 116, 46, 102, 48, 49], 1, 5, [65], [66]⟩ =
      some ⟨[116, 101, 115, 116, 46, 102, 115, 97], [116, 101, 115, 116, 46, 102, 48, 50], 2, 5, [65], [66]⟩ ∧
    (archreader_read_volheader [FSA_MAGIC_VOLH]
        ⟨[116, 101, 115, 116, 46, 102, 115, 97], [116, 101, 115, 116, 46, 102, 48, 50], 2, 5, [65], [66]⟩
        ⟨encode_header FSA_MAGIC_VOLH 5 65535 (mkvol_dico 7 2), 0⟩).1 =
      some VolhErr.idMismatch := by
  decide
